import Mathlib

/-!
Shallow embedding of `src/src-tauri/src/lib.rs` (tauri-libmpv-render-test).

The Rust file spawns one background thread that
  1. creates a glutin GPU display, surface attributes, config, window
     surface, context, makes the context current,
  2. creates an mpv instance and a libmpv render context (the render
     bridge), wires two callbacks that push tags into an mpsc channel,
  3. loops over the channel, handling `Redraw` (re-query window size,
     render, swap buffers) and `MpvEvents` (drain the mpv event queue
     with non-blocking `wait_event(0.0)` polls).

Machine integers: window sizes are `u32`, modelled as `Nat`; the loop
passes them to `render` after an `as` cast to `i32`, modelled by
`u32_as_i32` with explicit wraparound at `2^31`.
-/

/-- A window pixel size, `winit::dpi::PhysicalSize<u32>`. -/
structure PhysicalSize where
  width : Nat
  height : Nat
deriving DecidableEq, Repr

/-- Rust `NonZeroU32::new`: `none` exactly on zero. -/
def nonZeroU32New (x : Nat) : Option Nat :=
  if x = 0 then none else some x

/-- The `non_zero` method of the `NonZeroU32PhysicalSize` trait
(lib.rs lines 44-50): both dimensions through `NonZeroU32::new`,
propagating `None` with `?`. -/
def non_zero (s : PhysicalSize) : Option (Nat × Nat) := do
  let w ← nonZeroU32New s.width
  let h ← nonZeroU32New s.height
  pure (w, h)

/-- The `raw_window_handle::HandleError` variants. -/
inductive HandleError
  | notSupported
  | unavailable
deriving DecidableEq, Repr

/-- An opaque raw window handle. -/
structure RawHandle where
  id : Nat
deriving DecidableEq, Repr

/-- Outcome of `build_surface_attributes` (lib.rs lines 25-37): the
source either panics (`unwrap` / `expect`), propagates a
`raw_window_handle::HandleError` via `?`, or returns the built
attributes (handle plus the two non-zero dimensions). -/
inductive BuildSurfaceOutcome
  | panicked (msg : String)
  | handleErr (e : HandleError)
  | ok (handle : RawHandle) (w h : Nat)
deriving DecidableEq, Repr

/-- The `build_surface_attributes` impl for `tauri::WebviewWindow`
(lib.rs lines 25-37), in source order:
`self.inner_size().unwrap().non_zero().expect("invalid zero inner size")`,
then `self.window_handle()?`, then `Ok(builder.build(handle, w, h))`. -/
def build_surface_attributes (innerSize : Except String PhysicalSize)
    (windowHandle : Except HandleError RawHandle) : BuildSurfaceOutcome :=
  match innerSize with
  | .error e => .panicked e
  | .ok size =>
    match non_zero size with
    | none => .panicked "invalid zero inner size"
    | some (w, h) =>
      match windowHandle with
      | .error e => .handleErr e
      | .ok handle => .ok handle w h

/-- Rust `CString::new` (used by `get_proc_address`, lib.rs line 53):
fails exactly when the byte string contains an interior NUL byte;
for a UTF-8 `&str` that happens exactly when the character U+0000
occurs. -/
def cstring_new (name : String) : Option (List Char) :=
  if name.toList.any (fun c => c.toNat = 0) then none else some name.toList

/-- The `get_proc_address` function (lib.rs lines 52-57): encode the name, look it
up through the display on success, return the null pointer on encoding
failure. The display is modelled as its symbol table
`String → Nat`, where address `0` is the null pointer (glutin itself
returns null for an unresolvable symbol). -/
def get_proc_address (display : String → Nat) (name : String) : Nat :=
  match cstring_new name with
  | some _ => display name
  | none => 0

/-- The `MpvThreadEvent` enum (lib.rs lines 59-63): the two tags pushed
into the coordinator channel. `Redraw` is the render-bridge update
callback's tag, `MpvEvents` the engine wakeup callback's tag. -/
inductive MpvThreadEvent
  | Redraw
  | MpvEvents
deriving DecidableEq, Repr

/-- The mpv events the loop distinguishes (`libmpv2::events::Event`
as matched in lib.rs lines 173-185): `EndFile(_)` and every other
event collapsed to its debug description. -/
inductive MpvEvent
  | endFile (reason : Nat)
  | other (desc : String)
deriving DecidableEq, Repr

/-- An item of the engine's event queue: `mpv.wait_event` yields
`Option<Result<Event, Error>>` and a queue item is the `Result` part. -/
abbrev MpvQueueItem := Except String MpvEvent

/-- The poll `mpv.wait_event(timeout)` on a queue: pops the front item if one is
queued; with timeout `0` (the only timeout the loop uses) an empty
queue answers `none` immediately, without blocking. -/
def wait_event (timeout : Nat) (q : List MpvQueueItem) :
    Option MpvQueueItem × List MpvQueueItem :=
  match timeout, q with
  | _, [] => (none, [])
  | _, x :: rest => (some x, rest)

/-- Observable steps of the background thread: setup calls, loop
actions (`println!` logs, render, swap), and resource drops. -/
inductive Step
  | createDisplay
  | buildSurfaceAttrs
  | findConfig
  | createWindowSurface
  | createContext
  | makeCurrent
  | createEngine
  | createRenderBridge
  | setUpdateCallback
  | setWakeupCallback
  | loadFile
  | queryInnerSize (w h : Nat)
  | render (fbo w h : Int) (flipY : Bool)
  | swapBuffers
  | logOther (desc : String)
  | logError (desc : String)
  | logEndOfFile
  | dropResource (r : Nat)
deriving DecidableEq, Repr

/-- How the `while let Some(..) = mpv.wait_event(0.0)` loop exited. -/
inductive DrainExit
  | exhausted
  | terminated
deriving DecidableEq, Repr

/-- The drain loop of the `MpvEvents` arm (lib.rs lines 172-186):
poll until empty; `Ok(Event::EndFile(_))` logs and returns,
`Err(e)` logs and returns, any other `Ok(e)` logs and keeps polling.
Returns the emitted log steps, how the loop exited, and what is left
in the engine queue when it exited. -/
def drainMpvEvents : List MpvQueueItem → List Step × DrainExit × List MpvQueueItem
  | [] => ([], .exhausted, [])
  | .ok (.endFile _) :: rest => ([.logEndOfFile], .terminated, rest)
  | .ok (.other d) :: rest =>
    (.logOther d :: (drainMpvEvents rest).1,
     (drainMpvEvents rest).2.1, (drainMpvEvents rest).2.2)
  | .error d :: rest => ([.logError d], .terminated, rest)

/-- The coordinator's state: `running` while the `for` loop is live,
`terminating` once a `return` has executed. -/
inductive CoordState
  | running
  | terminating
deriving DecidableEq, Repr

/-- The `as` cast from `u32` to `i32` performed on the queried window
size before the `render` call (lib.rs lines 161-162). -/
def u32_as_i32 (x : Nat) : Int :=
  if x < 2 ^ 31 then (x : Int) else (x : Int) - 2 ^ 32

/-- The coordinator loop `for event in event_rx` (lib.rs lines 152-189).
`script` is the sequence of channel items in consumption (= send)
order; `sizeAt q` is what `window.inner_size()` reports at the q-th
query (the event carries no size); `batches b` is the engine queue
content found by the b-th `MpvEvents` drain (drains run to empty, so
each signal sees a fresh batch). Returns the emitted steps and the
final coordinator state; a `return` discards the rest of the script. -/
def processEvents (sizeAt : Nat → PhysicalSize) (batches : Nat → List MpvQueueItem) :
    List MpvThreadEvent → Nat → Nat → List Step × CoordState
  | [], _, _ => ([], .running)
  | .Redraw :: rest, q, b =>
    (.queryInnerSize (sizeAt q).width (sizeAt q).height ::
       .render 0 (u32_as_i32 (sizeAt q).width) (u32_as_i32 (sizeAt q).height) true ::
       .swapBuffers :: (processEvents sizeAt batches rest (q + 1) b).1,
     (processEvents sizeAt batches rest (q + 1) b).2)
  | .MpvEvents :: rest, q, b =>
    match (drainMpvEvents (batches b)).2.1 with
    | .terminated => ((drainMpvEvents (batches b)).1, .terminating)
    | .exhausted =>
      ((drainMpvEvents (batches b)).1 ++ (processEvents sizeAt batches rest q (b + 1)).1,
       (processEvents sizeAt batches rest q (b + 1)).2)

/-- Construction order of the thread-owned resources, as declared in
the thread body (lib.rs lines 81-136): display, window surface,
rendering context (kept as the current context), mpv engine, render
bridge. Encoded as indices 0..4 of `Step.dropResource`. -/
def displayRes : Nat := 0
def windowSurfaceRes : Nat := 1
def renderingContextRes : Nat := 2
def engineRes : Nat := 3
def renderBridgeRes : Nat := 4

def constructionOrder : List Nat :=
  [displayRes, windowSurfaceRes, renderingContextRes, engineRes, renderBridgeRes]

/-- Rust drops the locals of a scope in reverse declaration order on
every exit of the scope. -/
def teardownOrder : List Nat := constructionOrder.reverse

/-- The straight-line setup of the thread body before the loop
(lib.rs lines 78-150), in source order. -/
def setupSteps : List Step :=
  [.createDisplay, .buildSurfaceAttrs, .findConfig, .createWindowSurface,
   .createContext, .makeCurrent, .createEngine, .createRenderBridge,
   .setUpdateCallback, .setWakeupCallback, .loadFile]

/-- A whole run of the background thread: setup, then the coordinator
loop, then the scope-exit drops in reverse construction order
(the drops happen on the `return` exits and on loop end alike, since
every resource is declared before the loop). -/
def mpvThreadRun (sizeAt : Nat → PhysicalSize) (batches : Nat → List MpvQueueItem)
    (script : List MpvThreadEvent) : List Step :=
  setupSteps ++ (processEvents sizeAt batches script 0 0).1
    ++ teardownOrder.map Step.dropResource

/-- The mpsc channel as seen by the producer callbacks: whether the
receiver has been dropped, and the queued tags. -/
structure Channel where
  receiverDropped : Bool
  queue : List MpvThreadEvent
deriving DecidableEq, Repr

/-- Rust `std::sync::mpsc::Sender::send`: fails (returning the message in
`SendError`) exactly when the receiver has been dropped; otherwise the
message is appended to the queue. The `Bool` is `true` on `Ok`. -/
def mpsc_send (ch : Channel) (e : MpvThreadEvent) : Channel × Bool :=
  if ch.receiverDropped then (ch, false)
  else ({ ch with queue := ch.queue ++ [e] }, true)

/-- Body of the render-bridge update callback (lib.rs lines 141-143):
`redraw_tx.send(MpvThreadEvent::Redraw).ok();` — the send result is
discarded. -/
def update_callback_body (ch : Channel) : Channel :=
  (mpsc_send ch .Redraw).1

/-- Body of the mpv wakeup callback (lib.rs lines 145-147):
`event_tx.send(MpvThreadEvent::MpvEvents).ok();` — the send result is
discarded. -/
def wakeup_callback_body (ch : Channel) : Channel :=
  (mpsc_send ch .MpvEvents).1

/-- A sequence of producer sends, each discarding its result. -/
def pushAll (ch : Channel) : List MpvThreadEvent → Channel
  | [] => ch
  | e :: rest => pushAll (mpsc_send ch e).1 rest

/-- A batch of engine events none of which terminates the drain. -/
def otherBatch (descs : List String) : List MpvQueueItem :=
  descs.map (fun d => .ok (.other d))

/-- The three steps the loop emits for one `Redraw` tag, at the size
the window reports when the tag is handled. -/
def redrawSteps (s : PhysicalSize) : List Step :=
  [.queryInnerSize s.width s.height,
   .render 0 (u32_as_i32 s.width) (u32_as_i32 s.height) true,
   .swapBuffers]

/-- Spec-side ordering reference (section 8, event ordering): the trace
obtained by handling each pushed tag completely, one after the other,
in push order — `Redraw` and `MpvEvents` interleaved first-in
first-served, no priority. Stated for non-terminating engine batches. -/
def fifoSpecTrace (sizeAt : Nat → PhysicalSize) (descsAt : Nat → List String) :
    List MpvThreadEvent → Nat → Nat → List Step
  | [], _, _ => []
  | .Redraw :: rest, q, b => redrawSteps (sizeAt q) ++ fifoSpecTrace sizeAt descsAt rest (q + 1) b
  | .MpvEvents :: rest, q, b =>
    ((descsAt b).map Step.logOther) ++ fifoSpecTrace sizeAt descsAt rest q (b + 1)

/-! ### Helper lemmas -/

/-- The drain loop is exactly repeated non-blocking `wait_event 0`
polling: each iteration polls once and acts on the returned item. -/
theorem drainMpvEvents_eq_wait_event (q : List MpvQueueItem) :
    drainMpvEvents q =
      match wait_event 0 q with
      | (none, rem) => ([], .exhausted, rem)
      | (some (.ok (.endFile _)), rem) => ([.logEndOfFile], .terminated, rem)
      | (some (.ok (.other d)), rem) =>
        (.logOther d :: (drainMpvEvents rem).1,
         (drainMpvEvents rem).2.1, (drainMpvEvents rem).2.2)
      | (some (.error d), rem) => ([.logError d], .terminated, rem) := by
  match q with
  | [] => rfl
  | .ok (.endFile r) :: rest => rfl
  | .ok (.other d) :: rest => rfl
  | .error d :: rest => rfl

/-- Draining a batch with no `EndFile` and no error logs every event
and runs the engine queue down to empty. -/
theorem drainMpvEvents_otherBatch (descs : List String) :
    drainMpvEvents (otherBatch descs) = (descs.map Step.logOther, .exhausted, []) := by
  induction descs with
  | nil => rfl
  | cons d rest ih =>
    simp only [otherBatch] at ih ⊢
    simp [drainMpvEvents, ih]

/-- No drain step is a `makeCurrent`. -/
theorem makeCurrent_notin_drain (queue : List MpvQueueItem) :
    Step.makeCurrent ∉ (drainMpvEvents queue).1 := by
  induction queue with
  | nil => simp [drainMpvEvents]
  | cons item rest ih =>
    cases item with
    | ok e =>
      cases e with
      | endFile r => simp [drainMpvEvents]
      | other d => simpa [drainMpvEvents] using ih
    | error d => simp [drainMpvEvents]

/-- No coordinator-loop step is a `makeCurrent`. -/
theorem makeCurrent_notin_processEvents (sizeAt : Nat → PhysicalSize)
    (batches : Nat → List MpvQueueItem) :
    ∀ (script : List MpvThreadEvent) (q b : Nat),
      Step.makeCurrent ∉ (processEvents sizeAt batches script q b).1 := by
  intro script
  induction script with
  | nil => intro q b; simp [processEvents]
  | cons e rest ih =>
    intro q b
    cases e with
    | Redraw => simpa [processEvents] using ih (q + 1) b
    | MpvEvents =>
      cases hex : (drainMpvEvents (batches b)).2.1 with
      | terminated =>
        simpa [processEvents, hex] using makeCurrent_notin_drain (batches b)
      | exhausted =>
        simp [processEvents, hex]
        exact ⟨makeCurrent_notin_drain (batches b), ih q (b + 1)⟩

/-- Producer sends append to the queue while the receiver is alive. -/
theorem pushAll_live_queue (sends : List MpvThreadEvent) :
    ∀ acc : List MpvThreadEvent,
      (pushAll { receiverDropped := false, queue := acc } sends).queue = acc ++ sends := by
  induction sends with
  | nil => intro acc; simp [pushAll]
  | cons e rest ih =>
    intro acc
    simp [pushAll, mpsc_send, ih]

/-- The coordinator trace over non-terminating engine batches is the
concatenation of each pushed tag's own handling, in push order. -/
theorem processEvents_fifo (sizeAt : Nat → PhysicalSize) (descsAt : Nat → List String) :
    ∀ (script : List MpvThreadEvent) (q b : Nat),
      (processEvents sizeAt (fun n => otherBatch (descsAt n)) script q b).1 =
        fifoSpecTrace sizeAt descsAt script q b := by
  intro script
  induction script with
  | nil => intro q b; simp [processEvents, fifoSpecTrace]
  | cons e rest ih =>
    intro q b
    cases e with
    | Redraw => simp [processEvents, fifoSpecTrace, redrawSteps, ih (q + 1) b]
    | MpvEvents =>
      simp [processEvents, fifoSpecTrace, drainMpvEvents_otherBatch, ih q (b + 1)]

/-! ### Claim theorems -/

/-- C1: each drained engine event is handled as the spec states:
`EndFile` (end of media) logs and immediately terminates the drain —
events queued after it are never handled and the remaining channel
script is discarded; an error event logs and terminates; any other
event logs while the coordinator keeps draining and remains running.
Includes the end-of-media-at-position-3-of-5 scenario, which stops
with events 4 and 5 still queued and the state `terminating`. -/
theorem drained_event_handling (r : Nat) (d e : String) (rest : List MpvQueueItem)
    (sizeAt : Nat → PhysicalSize) (restScript : List MpvThreadEvent) (q b : Nat) :
    drainMpvEvents (.ok (.endFile r) :: rest) = ([.logEndOfFile], .terminated, rest)
    ∧ drainMpvEvents (.error e :: rest) = ([.logError e], .terminated, rest)
    ∧ drainMpvEvents (.ok (.other d) :: rest) =
        (.logOther d :: (drainMpvEvents rest).1,
         (drainMpvEvents rest).2.1, (drainMpvEvents rest).2.2)
    ∧ processEvents sizeAt (fun _ => .ok (.endFile r) :: rest) (.MpvEvents :: restScript) q b =
        ([.logEndOfFile], .terminating)
    ∧ processEvents sizeAt (fun _ => .error e :: rest) (.MpvEvents :: restScript) q b =
        ([.logError e], .terminating)
    ∧ processEvents sizeAt (fun _ => [.ok (.other d)]) [.MpvEvents] q b =
        ([.logOther d], .running)
    ∧ drainMpvEvents [.ok (.other "e1"), .ok (.other "e2"), .ok (.endFile 0),
        .ok (.other "e4"), .ok (.other "e5")] =
        ([.logOther "e1", .logOther "e2", .logEndOfFile],
         .terminated, [.ok (.other "e4"), .ok (.other "e5")]) :=
  ⟨rfl, rfl, rfl, rfl, rfl, rfl, rfl⟩

/-- C2: the drain is exactly repeated non-blocking `wait_event 0`
polling until a poll returns `none`; a batch with no terminating event
is drained completely (every event logged, engine queue left empty),
and only then does the coordinator move on to the next channel item —
one signal can cover any number of queued events. -/
theorem engine_signal_drains_to_empty (descs : List String) (queue : List MpvQueueItem)
    (sizeAt : Nat → PhysicalSize) (tail : Nat → List MpvQueueItem)
    (restScript : List MpvThreadEvent) (q : Nat) :
    drainMpvEvents queue =
      (match wait_event 0 queue with
       | (none, rem) => ([], .exhausted, rem)
       | (some (.ok (.endFile _)), rem) => ([.logEndOfFile], .terminated, rem)
       | (some (.ok (.other d)), rem) =>
         (.logOther d :: (drainMpvEvents rem).1,
          (drainMpvEvents rem).2.1, (drainMpvEvents rem).2.2)
       | (some (.error d), rem) => ([.logError d], .terminated, rem))
    ∧ drainMpvEvents (otherBatch descs) = (descs.map Step.logOther, .exhausted, [])
    ∧ processEvents sizeAt (fun n => match n with | 0 => otherBatch descs | m + 1 => tail m)
        (.MpvEvents :: restScript) q 0 =
        (descs.map Step.logOther ++
          (processEvents sizeAt
            (fun n => match n with | 0 => otherBatch descs | m + 1 => tail m)
            restScript q 1).1,
         (processEvents sizeAt
           (fun n => match n with | 0 => otherBatch descs | m + 1 => tail m)
           restScript q 1).2) := by
  refine ⟨drainMpvEvents_eq_wait_event queue, drainMpvEvents_otherBatch descs, ?_⟩
  simp [processEvents, drainMpvEvents_otherBatch]

/-- C3: the channel is first-in-first-served — producer sends append
to the queue in send order, and the coordinator's trace over a pushed
script is the concatenation of each tag's own handling block in push
order, with `Redraw` and `MpvEvents` treated without priority. -/
theorem channel_fifo_ordering (sends : List MpvThreadEvent) (sizeAt : Nat → PhysicalSize)
    (descsAt : Nat → List String) (q b : Nat) :
    (pushAll { receiverDropped := false, queue := [] } sends).queue = sends
    ∧ (processEvents sizeAt (fun n => otherBatch (descsAt n)) sends q b).1 =
        fifoSpecTrace sizeAt descsAt sends q b :=
  ⟨by simpa using pushAll_live_queue sends [], processEvents_fifo sizeAt descsAt sends q b⟩

/-- C4: a `Redraw` is handled by querying the window size at handling
time (the tag carries no size; the q-th handled query sees the q-th
reported size), rendering at exactly that queried size (cast to i32 as
the source does), then swapping buffers; two redraws straddling a
resize each render at their own handling-time size. -/
theorem redraw_requeries_size (sizeAt : Nat → PhysicalSize)
    (batches : Nat → List MpvQueueItem) (rest : List MpvThreadEvent) (q b : Nat)
    (s0 s1 : PhysicalSize) :
    processEvents sizeAt batches (.Redraw :: rest) q b =
      (.queryInnerSize (sizeAt q).width (sizeAt q).height ::
         .render 0 (u32_as_i32 (sizeAt q).width) (u32_as_i32 (sizeAt q).height) true ::
         .swapBuffers :: (processEvents sizeAt batches rest (q + 1) b).1,
       (processEvents sizeAt batches rest (q + 1) b).2)
    ∧ (processEvents (fun n => match n with | 0 => s0 | _ + 1 => s1) batches
         [.Redraw, .Redraw] 0 b).1 = redrawSteps s0 ++ redrawSteps s1 :=
  ⟨rfl, rfl⟩

/-- C5 counterexample: at reported size 0 x 100 with a perfectly
available native handle, `build_surface_attributes` does not produce
the `HandleError` (HandleUnavailable) failure the claim names — it
panics with the `expect` message instead. -/
theorem zero_size_not_handle_unavailable :
    build_surface_attributes (.ok ⟨0, 100⟩) (.ok ⟨1⟩) = .panicked "invalid zero inner size"
    ∧ build_surface_attributes (.ok ⟨0, 100⟩) (.ok ⟨1⟩) ≠ .handleErr .unavailable
    ∧ build_surface_attributes (.ok ⟨0, 100⟩) (.ok ⟨1⟩) ≠ .handleErr .notSupported := by
  refine ⟨rfl, by decide, by decide⟩

/-- C5 (amended): for a reported size with zero width or zero height,
surface-attribute construction fails by panicking with
"invalid zero inner size" (aborting setup) rather than by returning a
handle error; it never returns built attributes, so GPU setup never
proceeds with a zero dimension — the zero size is rejected, not
clamped. -/
theorem zero_size_panics_never_proceeds (w h : Nat)
    (windowHandle : Except HandleError RawHandle) (hdl : RawHandle) (w2 h2 : Nat)
    (hz : w = 0 ∨ h = 0) :
    build_surface_attributes (.ok ⟨w, h⟩) windowHandle = .panicked "invalid zero inner size"
    ∧ build_surface_attributes (.ok ⟨w, h⟩) windowHandle ≠ .ok hdl w2 h2 := by
  have hnz : non_zero ⟨w, h⟩ = none := by
    rcases hz with rfl | rfl
    · simp [non_zero, nonZeroU32New]
    · by_cases hw : w = 0 <;> simp [non_zero, nonZeroU32New, hw]
  refine ⟨?_, ?_⟩ <;> simp [build_surface_attributes, hnz]

/-- C5 witness: the amended claim evaluated at size 0 x 50. -/
theorem zero_size_panics_never_proceeds_witness :
    build_surface_attributes (.ok ⟨0, 50⟩) (.ok ⟨7⟩) = .panicked "invalid zero inner size"
    ∧ build_surface_attributes (.ok ⟨0, 50⟩) (.ok ⟨7⟩) ≠ .ok ⟨7⟩ 1 1 :=
  zero_size_panics_never_proceeds 0 50 (.ok ⟨7⟩) ⟨7⟩ 1 1 (Or.inl rfl)

/-- C6: teardown is the reverse of construction — on a thread run the
trace ends with the drops of the render bridge, then the engine, then
the rendering context, then the window surface, then the display. -/
theorem teardown_reverse_construction (sizeAt : Nat → PhysicalSize)
    (batches : Nat → List MpvQueueItem) (script : List MpvThreadEvent) :
    teardownOrder = [renderBridgeRes, engineRes, renderingContextRes, windowSurfaceRes, displayRes]
    ∧ mpvThreadRun sizeAt batches script =
        setupSteps ++ (processEvents sizeAt batches script 0 0).1 ++
          [.dropResource renderBridgeRes, .dropResource engineRes,
           .dropResource renderingContextRes, .dropResource windowSurfaceRes,
           .dropResource displayRes] :=
  ⟨rfl, rfl⟩

/-- C7: over a whole background-thread run — setup, any coordinator
script, teardown — `makeCurrent` occurs exactly once; neither the
drain loop nor the event loop ever makes the context current again. -/
theorem make_current_exactly_once (sizeAt : Nat → PhysicalSize)
    (batches : Nat → List MpvQueueItem) (script : List MpvThreadEvent) :
    (mpvThreadRun sizeAt batches script).count Step.makeCurrent = 1 := by
  unfold mpvThreadRun
  rw [List.count_append, List.count_append,
    List.count_eq_zero.mpr (makeCurrent_notin_processEvents sizeAt batches script 0 0)]
  decide

/-- C8: the proc-address resolver returns the display's resolved
pointer for an encodable name and the null pointer (never an error)
otherwise; the result is null exactly when the name has an interior
NUL byte or the display itself resolves the symbol to null. -/
theorem get_proc_address_null_on_failure (display : String → Nat) (name : String) :
    (name.toList.any (fun c => c.toNat = 0) = true → get_proc_address display name = 0)
    ∧ (name.toList.any (fun c => c.toNat = 0) = false →
        get_proc_address display name = display name)
    ∧ (get_proc_address display name = 0 ↔
        (name.toList.any (fun c => c.toNat = 0) = true ∨ display name = 0)) := by
  by_cases hnul : name.toList.any (fun c => c.toNat = 0) = true
  · have hc : cstring_new name = none := by
      unfold cstring_new
      rw [hnul]
      rfl
    have hg : get_proc_address display name = 0 := by
      unfold get_proc_address
      rw [hc]
    refine ⟨fun _ => hg, fun hf => ?_, iff_of_true hg (Or.inl hnul)⟩
    rw [hnul] at hf
    simp at hf
  · have hb : name.toList.any (fun c => c.toNat = 0) = false := by
      rwa [Bool.not_eq_true] at hnul
    have hc : cstring_new name = some name.toList := by
      unfold cstring_new
      rw [hb]
      rfl
    have hg : get_proc_address display name = display name := by
      unfold get_proc_address
      rw [hc]
    refine ⟨fun ht => ?_, fun _ => hg, ?_⟩
    · rw [hb] at ht
      simp at ht
    · rw [hg]
      constructor
      · exact fun hd => Or.inr hd
      · rintro (ht | hd)
        · rw [hb] at ht
          simp at ht
        · exact hd

/-- C8 witness: a name containing NUL resolves to the null pointer, an
ordinary symbol name resolves through the display. -/
theorem get_proc_address_null_on_failure_witness :
    get_proc_address (fun _ => 42) (String.mk [Char.ofNat 0]) = 0
    ∧ get_proc_address (fun _ => 42) "glGetString" = 42 :=
  ⟨(get_proc_address_null_on_failure (fun _ => 42) (String.mk [Char.ofNat 0])).1 (by decide),
   (get_proc_address_null_on_failure (fun _ => 42) "glGetString").2.1 (by decide)⟩

/-- C9: the event loop applies no zero-size guard — a `Redraw` handled
while the window reports width 0 (or height 0) still renders
unconditionally at that zero dimension and swaps, instead of being
rejected or skipped. -/
theorem redraw_no_zero_size_guard (w h : Nat) (szw szh : Nat → PhysicalSize)
    (batches : Nat → List MpvQueueItem) (rest : List MpvThreadEvent) (b : Nat) :
    u32_as_i32 0 = 0
    ∧ (processEvents (fun n => match n with | 0 => ⟨0, h⟩ | m + 1 => szh m) batches
         (.Redraw :: rest) 0 b).1 =
        .queryInnerSize 0 h :: .render 0 (u32_as_i32 0) (u32_as_i32 h) true :: .swapBuffers ::
          (processEvents (fun n => match n with | 0 => ⟨0, h⟩ | m + 1 => szh m)
            batches rest 1 b).1
    ∧ (processEvents (fun n => match n with | 0 => ⟨w, 0⟩ | m + 1 => szw m) batches
         (.Redraw :: rest) 0 b).1 =
        .queryInnerSize w 0 :: .render 0 (u32_as_i32 w) (u32_as_i32 0) true :: .swapBuffers ::
          (processEvents (fun n => match n with | 0 => ⟨w, 0⟩ | m + 1 => szw m)
            batches rest 1 b).1 :=
  ⟨by decide, rfl, rfl⟩

/-- C10: both producer callbacks discard the channel-send result; once
the receiver is dropped the send fails and the callback leaves the
channel untouched — a total no-op with no error and no blocking. -/
theorem callbacks_discard_send_failure (ch : Channel) (hd : ch.receiverDropped = true) :
    update_callback_body ch = ch
    ∧ wakeup_callback_body ch = ch
    ∧ (mpsc_send ch .Redraw).2 = false
    ∧ (mpsc_send ch .MpvEvents).2 = false := by
  simp [update_callback_body, wakeup_callback_body, mpsc_send, hd]

/-- C10 witness: the callbacks are no-ops on a concrete channel whose
receiver is gone. -/
theorem callbacks_discard_send_failure_witness :
    update_callback_body { receiverDropped := true, queue := [] } =
        { receiverDropped := true, queue := [] }
    ∧ wakeup_callback_body { receiverDropped := true, queue := [] } =
        { receiverDropped := true, queue := [] }
    ∧ (mpsc_send { receiverDropped := true, queue := [] } .Redraw).2 = false
    ∧ (mpsc_send { receiverDropped := true, queue := [] } .MpvEvents).2 = false :=
  callbacks_discard_send_failure { receiverDropped := true, queue := [] } rfl
